import Mathlib

/-!
Verification of the rusty-kaspa gRPC client core and the consensus
notification subscription filters, as a shallow embedding in Lean 4.

Sources embedded:
- src/consensus/core/src/notification.rs (the Notification enum and its
  subscription-application functions);
- src/rpc/grpc/src/client/mod.rs (GrpcClient, Inner: connect handshake,
  call, handle_response, receive task step, shutdown handshake,
  SubscriptionManager implementation).

Machine integers are modelled as Nat with explicit reduction modulo 2^64
where the source manipulates a u64. Stateful code is modelled as explicit
state transformers which additionally emit a trace of effects (channel
sends, collaborator invocations, shutdown triggers), so that claims about
what the code does or does not perform on the wire are statable.
-/

namespace RustyKaspa

/-- A block hash (hashes::Hash), modelled as a natural number. -/
abbrev Hash := Nat

/-- A transaction id (crate::tx::TransactionId), modelled as a natural number. -/
abbrev TransactionId := Nat

/-- A consensus block; only its identity matters for the embedded code. -/
structure Block where
  hash : Hash
deriving DecidableEq, Repr

/-- A UTXO diff (crate::utxo::utxo_diff::UtxoDiff); carried opaquely by the
UtxosChanged notification, which the embedded code never inspects. -/
structure UtxoDiff where
  add : List Nat
  remove : List Nat
deriving DecidableEq, Repr

/- Notification payload structures, from consensus/core/src/notification.rs.
Arc-shared payloads become plain values in the embedding. -/

structure BlockAddedNotification where
  block : Block
deriving DecidableEq, Repr

structure VirtualSelectedParentChainChangedNotification where
  added_chain_block_hashes : List Hash
  removed_chain_block_hashes : List Hash
  accepted_transaction_ids : List TransactionId
deriving DecidableEq, Repr

structure FinalityConflictNotification where
  violating_block_hash : Hash
deriving DecidableEq, Repr

structure FinalityConflictResolvedNotification where
  finality_block_hash : Hash
deriving DecidableEq, Repr

structure UtxosChangedNotification where
  accumulated_utxo_diff : UtxoDiff
deriving DecidableEq, Repr

structure VirtualSelectedParentBlueScoreChangedNotification where
  virtual_selected_parent_blue_score : Nat
deriving DecidableEq, Repr

structure VirtualDaaScoreChangedNotification where
  virtual_daa_score : Nat
deriving DecidableEq, Repr

structure PruningPointUtxoSetOverrideNotification where
deriving DecidableEq, Repr

structure NewBlockTemplateNotification where
deriving DecidableEq, Repr

/-- The consensus Notification enum (consensus/core/src/notification.rs). -/
inductive Notification where
  | BlockAdded (payload : BlockAddedNotification)
  | VirtualSelectedParentChainChanged (payload : VirtualSelectedParentChainChangedNotification)
  | FinalityConflict (payload : FinalityConflictNotification)
  | FinalityConflictResolved (payload : FinalityConflictResolvedNotification)
  | UtxosChanged (payload : UtxosChangedNotification)
  | VirtualSelectedParentBlueScoreChanged (payload : VirtualSelectedParentBlueScoreChangedNotification)
  | VirtualDaaScoreChanged (payload : VirtualDaaScoreChangedNotification)
  | PruningPointUtxoSetOverride (payload : PruningPointUtxoSetOverrideNotification)
  | NewBlockTemplate (payload : NewBlockTemplateNotification)
deriving DecidableEq, Repr

/-- Modelled from the spec: the kaspa_notify OverallSubscription type is not
among the provided sources; per the spec a subscription record is an active
flag plus a filter, which is unit for overall subscriptions. -/
structure OverallSubscription where
  active : Bool
deriving DecidableEq, Repr

/-- Modelled from the spec: the kaspa_notify chain-changed subscription type
is not among the provided sources; its filter is the
include_accepted_transaction_ids flag. -/
structure VirtualSelectedParentChainChangedSubscription where
  active : Bool
  include_accepted_transaction_ids : Bool
deriving DecidableEq, Repr

/-- Modelled from the spec: the kaspa_notify UtxosChanged subscription type is
not among the provided sources; its filter is a set of watched addresses. -/
structure UtxosChangedSubscription where
  active : Bool
  addresses : List Nat
deriving DecidableEq, Repr

/-- Notification::apply_overall_subscription
(consensus/core/src/notification.rs): clone when active, nothing otherwise. -/
def Notification.apply_overall_subscription (self : Notification)
    (subscription : OverallSubscription) : Option Notification :=
  match subscription.active with
  | true => some self
  | false => none

/-- Notification::apply_virtual_selected_parent_chain_changed_subscription
(consensus/core/src/notification.rs): when active, a chain-changed payload
whose accepted transaction ids must be withheld is re-emitted with an empty
accepted list; every other active case is a clone; inactive yields nothing. -/
def Notification.apply_virtual_selected_parent_chain_changed_subscription
    (self : Notification)
    (subscription : VirtualSelectedParentChainChangedSubscription) : Option Notification :=
  match subscription.active with
  | true =>
    match self with
    | Notification.VirtualSelectedParentChainChanged payload =>
      if !subscription.include_accepted_transaction_ids
          && !payload.accepted_transaction_ids.isEmpty then
        some (Notification.VirtualSelectedParentChainChanged
          { removed_chain_block_hashes := payload.removed_chain_block_hashes
            added_chain_block_hashes := payload.added_chain_block_hashes
            accepted_transaction_ids := [] })
      else
        some self
    | _ => some self
  | false => none

/-- Notification::apply_utxos_changed_subscription
(consensus/core/src/notification.rs): unconditional pass-through clone. -/
def Notification.apply_utxos_changed_subscription (self : Notification)
    (_subscription : UtxosChangedSubscription) : Option Notification :=
  some self

/- ---------------------------------------------------------------------
gRPC client model (src/rpc/grpc/src/client/mod.rs)
--------------------------------------------------------------------- -/

/-- SubscribeCommand (kaspa_rpc_core::api::ops). -/
inductive SubscribeCommand where
  | start
  | stop
deriving DecidableEq, Repr

/-- Modelled from the spec: the kaspa_rpc_core NotificationType enum is not
among the provided sources; per the spec it discriminates the notifiable
events and carries the event-specific filter parameters. -/
inductive NotificationType where
  | blockAdded
  | virtualSelectedParentChainChanged (include_accepted_transaction_ids : Bool)
  | finalityConflict
  | finalityConflictResolved
  | utxosChanged (addresses : List Nat)
  | virtualSelectedParentBlueScoreChanged
  | virtualDaaScoreChanged
  | pruningPointUtxoSetOverride
  | newBlockTemplate
deriving DecidableEq, Repr

/-- Modelled from the spec: the kaspa_rpc_core RpcApiOps enum is not among the
provided sources; a representative subset of the operation tags suffices, the
embedded client code only carries them around. -/
inductive RpcApiOps where
  | ping
  | getInfo
  | getBlock
  | submitBlock
  | getBlockTemplate
  | notifyOp (t : NotificationType) (c : SubscribeCommand)
  | otherOp (n : Nat)
deriving DecidableEq, Repr

/-- Modelled from the spec: the protowire request payloads are an opaque codec;
only the payload's presence and, for subscribe commands, its event and command
matter to the embedded code. -/
inductive RequestPayload where
  | getInfoRequest
  | subscribe (t : NotificationType) (c : SubscribeCommand)
  | body (op : RpcApiOps) (data : Nat)
deriving DecidableEq, Repr

/-- A protowire KaspadRequest: a u64 id field plus an optional payload. -/
structure KaspadRequest where
  id : Nat
  payload : Option RequestPayload
deriving DecidableEq, Repr

/-- A protowire KaspadResponse. Modelled from the spec: a response carries an
operation tag, an optional correlation id, an optional (opaque) payload and a
classification bit stating whether it is a notification. -/
structure KaspadResponse where
  id : Nat
  op : RpcApiOps
  payload : Option Nat
  is_notification : Bool
deriving DecidableEq, Repr

/-- The capability flags of a decoded GetInfoResponse. -/
structure GetInfoResponse where
  has_notify_command : Bool
  has_message_id : Bool
deriving DecidableEq, Repr

/-- The gRPC client error type (src/rpc/grpc/src/client/errors.rs); the
variants used by the embedded code. -/
inductive ClientError where
  | stringError (msg : String)
  | channelRecvError
  | missingRequestPayload
deriving DecidableEq, Repr

/-- The rpc-core error type (kaspa_rpc_core::error::RpcError); the variants
used by the embedded code. -/
inductive RpcError where
  | unsupportedFeature
  | fromClientError (e : ClientError)
  | otherError (n : Nat)
deriving DecidableEq, Repr

/-- A bounded mpsc channel, seen from the sender side: whether the receiver
was dropped, the capacity, and the buffered items in send order. -/
structure ChannelState (α : Type) where
  closed : Bool
  capacity : Nat
  buffer : List α
deriving DecidableEq, Repr

/-- Non-blocking try_send: fails when the channel is closed or full. -/
def ChannelState.trySend {α : Type} (c : ChannelState α) (a : α) :
    Option (ChannelState α) :=
  if c.closed ∨ c.capacity ≤ c.buffer.length then none
  else some { c with buffer := c.buffer ++ [a] }

/-- Blocking send: the caller waits for room, so only a dropped receiver makes
it fail; the buffer simply records every message in send order. -/
def ChannelState.push {α : Type} (c : ChannelState α) (a : α) : ChannelState α :=
  { c with buffer := c.buffer ++ [a] }

/-- Remove the first list element satisfying a predicate, keeping the rest. -/
def removeFirstMatching {α : Type} (p : α → Bool) : List α → List α
  | [] => []
  | a :: rest => if p a then rest else a :: removeFirstMatching p rest

/-- The two resolver variants behind DynResolver
(src/rpc/grpc/src/client/resolver): IdResolver keyed by message id,
QueueResolver keyed by operation arrival order. Each holds its pendings. -/
inductive DynResolver where
  | idResolver (pendings : List (Nat × RpcApiOps))
  | queueResolver (pendings : List (RpcApiOps × Nat))
deriving DecidableEq, Repr

/-- Whether the resolver is the id-based variant. -/
def DynResolver.isIdBased : DynResolver → Bool
  | .idResolver _ => true
  | .queueResolver _ => false

/-- Modelled from the spec: the resolver implementations are outside the
provided sources; register inserts a Pending, keyed by the request id in the
id-based variant and by operation order in the queue-based variant. -/
def DynResolver.register_request (r : DynResolver) (op : RpcApiOps)
    (request : KaspadRequest) : DynResolver :=
  match r with
  | .idResolver ps => .idResolver (ps ++ [(request.id, op)])
  | .queueResolver ps => .queueResolver (ps ++ [(op, request.id)])

/-- Modelled from the spec: the resolver implementations are outside the
provided sources; complete removes the matching Pending — by id in the
id-based variant, the first pending of the operation in the queue-based one. -/
def DynResolver.handle_response (r : DynResolver) (response : KaspadResponse) :
    DynResolver :=
  match r with
  | .idResolver ps => .idResolver (removeFirstMatching (fun p => p.1 == response.id) ps)
  | .queueResolver ps => .queueResolver (removeFirstMatching (fun p => p.1 == response.op) ps)

/-- The observable effects of the client state transformers: wire sends,
collaborator invocations and the shutdown handshakes. -/
inductive Effect where
  | requestSend (r : KaspadRequest)
  | notifySend (n : Notification)
  | resolverRegister (op : RpcApiOps) (r : KaspadRequest)
  | resolverComplete (r : KaspadResponse)
  | timeoutShutdownTrigger
  | timeoutShutdownAwaited
  | receiverShutdownTrigger
  | receiverShutdownAwaited
deriving DecidableEq, Repr

/-- The Inner client state (src/rpc/grpc/src/client/mod.rs): capability flags,
notification and request channels, the resolver, and the running flags of the
two background tasks. -/
structure Inner where
  handle_stop_notify : Bool
  handle_message_id : Bool
  notify_sender : ChannelState Notification
  request_sender : ChannelState KaspadRequest
  resolver : DynResolver
  receiver_is_running : Bool
  timeout_is_running : Bool
deriving DecidableEq, Repr

/-- Inner::new: the resolver variant is chosen from handle_message_id, the
task running flags start false. -/
def Inner.new (handle_stop_notify handle_message_id : Bool)
    (notify_send : ChannelState Notification)
    (request_send : ChannelState KaspadRequest) : Inner :=
  { handle_stop_notify := handle_stop_notify
    handle_message_id := handle_message_id
    notify_sender := notify_send
    request_sender := request_send
    resolver := match handle_message_id with
      | true => DynResolver.idResolver []
      | false => DynResolver.queueResolver []
    receiver_is_running := false
    timeout_is_running := false }

/-- The capability-and-variant portion of the client state: the two handshake
flags and the resolver variant. -/
def Inner.caps (s : Inner) : Bool × Bool × Bool :=
  (s.handle_stop_notify, s.handle_message_id, s.resolver.isIdBased)

/-- The initial GetInfo probe message (GetInfoRequestMessage {}.into()). -/
def getInfoRequestMessage : KaspadRequest :=
  { id := 0, payload := some RequestPayload.getInfoRequest }

/-- Inner::connect, from the point where the transport channel is established
(transport establishment is out of scope per the spec). The request channel is
opened with capacity 16; the GetInfo probe is sent first; the first read of
the response stream (an error, end-of-stream, or a message) decides the
outcome: a message is decoded into capability flags, defaulting to false on
decode failure; Inner::new builds the state and the two background tasks are
spawned. Returns the outbound messages sent during connect and the result. -/
def Inner.connect (firstRead : Except ClientError (Option KaspadResponse))
    (decodeGetInfo : KaspadResponse → Option GetInfoResponse)
    (notify_send : ChannelState Notification) :
    List KaspadRequest × Except ClientError Inner :=
  let request_send : ChannelState KaspadRequest :=
    { closed := false, capacity := 16, buffer := [] }
  let request_send := request_send.push getInfoRequestMessage
  let sent := [getInfoRequestMessage]
  match firstRead with
  | Except.error e => (sent, Except.error e)
  | Except.ok none =>
    (sent, Except.error (ClientError.stringError "gRPC stream was closed by the server"))
  | Except.ok (some msg) =>
    let caps : GetInfoResponse :=
      match decodeGetInfo msg with
      | some response => response
      | none => { has_notify_command := false, has_message_id := false }
    let inner := Inner.new caps.has_notify_command caps.has_message_id notify_send request_send
    let inner := { inner with timeout_is_running := true }
    let inner := { inner with receiver_is_running := true }
    (sent, Except.ok inner)

/-- The outcome of Inner::call up to enqueueing the request (the final
response is delivered asynchronously by the receive task). -/
inductive CallOutcome where
  | enqueued
  | failed (e : ClientError)
deriving DecidableEq, Repr

/-- Inner::call up to enqueueing: a fresh u64 id is generated (the random
value is a parameter) and assigned to the request; with a payload present the
request is registered with the resolver and sent on the request channel; with
no payload the MissingRequestPayload error is returned. -/
def Inner.callStep (s : Inner) (op : RpcApiOps) (freshId : Nat)
    (request0 : KaspadRequest) : CallOutcome × Inner × List Effect :=
  let id := freshId % 2 ^ 64
  let request : KaspadRequest := { request0 with id := id }
  if request.payload.isSome then
    let s1 := { s with resolver := s.resolver.register_request op request }
    if s1.request_sender.closed then
      (CallOutcome.failed ClientError.channelRecvError, s1,
        [Effect.resolverRegister op request])
    else
      (CallOutcome.enqueued,
        { s1 with request_sender := s1.request_sender.push request },
        [Effect.resolverRegister op request, Effect.requestSend request])
  else
    (CallOutcome.failed ClientError.missingRequestPayload, s, [])

/-- Inner::handle_response: a notification is converted (the protowire
conversion is a parameter) and forwarded to the notifier channel by a
non-blocking send, conversion and send failures being logged and dropped; a
non-notification response carrying a payload goes to the resolver; anything
else is dropped. -/
def Inner.handle_response (conv : KaspadResponse → Option Notification)
    (s : Inner) (response : KaspadResponse) : Inner × List Effect :=
  if response.is_notification then
    match conv response with
    | some n =>
      match s.notify_sender.trySend n with
      | some c => ({ s with notify_sender := c }, [Effect.notifySend n])
      | none => (s, [])
    | none => (s, [])
  else if response.payload.isSome then
    ({ s with resolver := s.resolver.handle_response response },
      [Effect.resolverComplete response])
  else
    (s, [])

instance exceptDecEq {ε α : Type} [DecidableEq ε] [DecidableEq α] :
    DecidableEq (Except ε α) := fun x y =>
  match x, y with
  | Except.ok a, Except.ok b =>
    if h : a = b then isTrue (by rw [h])
    else isFalse (by intro hh; cases hh; exact h rfl)
  | Except.ok _, Except.error _ => isFalse (by intro hh; cases hh)
  | Except.error _, Except.ok _ => isFalse (by intro hh; cases hh)
  | Except.error a, Except.error b =>
    if h : a = b then isTrue (by rw [h])
    else isFalse (by intro hh; cases hh; exact h rfl)

/-- One event observed by the receive task loop: the shutdown signal winning
the select, or the outcome of stream.message() — a stream error, end of
stream, or a message. -/
inductive StreamEvent where
  | shutdownSignal
  | streamItem (m : Except String (Option KaspadResponse))
deriving DecidableEq, Repr

/-- Whether a loop iteration breaks or continues. -/
inductive LoopAction where
  | breakLoop
  | continueLoop
deriving DecidableEq, Repr

/-- One iteration of the receive task loop
(Inner::spawn_response_receiver_task): shutdown breaks; a stream error is
logged and the loop continues; end-of-stream breaks; a message is handled by
handle_response and the loop continues. -/
def Inner.receiverStep (conv : KaspadResponse → Option Notification)
    (s : Inner) (e : StreamEvent) : LoopAction × Inner × List Effect :=
  match e with
  | StreamEvent.shutdownSignal => (LoopAction.breakLoop, s, [])
  | StreamEvent.streamItem (Except.error _) => (LoopAction.continueLoop, s, [])
  | StreamEvent.streamItem (Except.ok none) => (LoopAction.breakLoop, s, [])
  | StreamEvent.streamItem (Except.ok (some response)) =>
    let step := Inner.handle_response conv s response
    (LoopAction.continueLoop, step.1, step.2)

/-- Inner::stop_timeout_monitor: when the reaper task is running, trigger its
shutdown request and await the response — the task exits its loop, stores
false into its running flag, and triggers the response before the await
completes. When it is not running, do nothing. -/
def Inner.stop_timeout_monitor (s : Inner) : Inner × List Effect :=
  if s.timeout_is_running then
    ({ s with timeout_is_running := false },
      [Effect.timeoutShutdownTrigger, Effect.timeoutShutdownAwaited])
  else
    (s, [])

/-- Inner::stop_response_receiver_task: the same handshake for the receive
task. -/
def Inner.stop_response_receiver_task (s : Inner) : Inner × List Effect :=
  if s.receiver_is_running then
    ({ s with receiver_is_running := false },
      [Effect.receiverShutdownTrigger, Effect.receiverShutdownAwaited])
  else
    (s, [])

/-- Inner::shutdown: stop the timeout monitor, then the response receiver
task; both always report Ok. -/
def Inner.shutdown (s : Inner) : Except ClientError Unit × Inner × List Effect :=
  (Except.ok (),
    s.stop_timeout_monitor.1.stop_response_receiver_task.1,
    s.stop_timeout_monitor.2 ++ s.stop_timeout_monitor.1.stop_response_receiver_task.2)

/-- kaspad_request::Payload::from_notification_type: builds the subscribe
payload for an event and a command. -/
def payloadFromNotificationType (t : NotificationType) (c : SubscribeCommand) :
    RequestPayload :=
  RequestPayload.subscribe t c

/-- The SubscriptionManager implementation of Inner, start_notify: builds the
Start subscribe request and issues it through call. -/
def Inner.sm_start_notify (s : Inner) (_listener : Nat) (t : NotificationType)
    (freshId : Nat) : Except RpcError Unit × Inner × List Effect :=
  let request := payloadFromNotificationType t SubscribeCommand.start
  match s.callStep (RpcApiOps.notifyOp t SubscribeCommand.start) freshId
      { id := 0, payload := some request } with
  | (CallOutcome.enqueued, s2, eff) => (Except.ok (), s2, eff)
  | (CallOutcome.failed e, s2, eff) => (Except.error (RpcError.fromClientError e), s2, eff)

/-- The SubscriptionManager implementation of Inner, stop_notify: when the
server advertised has_notify_command, build and issue the Stop subscribe
request; otherwise log and do nothing, returning Ok. -/
def Inner.sm_stop_notify (s : Inner) (_listener : Nat) (t : NotificationType)
    (freshId : Nat) : Except RpcError Unit × Inner × List Effect :=
  if s.handle_stop_notify then
    let request := payloadFromNotificationType t SubscribeCommand.stop
    match s.callStep (RpcApiOps.notifyOp t SubscribeCommand.stop) freshId
        { id := 0, payload := some request } with
    | (CallOutcome.enqueued, s2, eff) => (Except.ok (), s2, eff)
    | (CallOutcome.failed e, s2, eff) => (Except.error (RpcError.fromClientError e), s2, eff)
  else
    (Except.ok (), s, [])

/-- The public client facade; the notifier collaborator lives outside the
embedded state. -/
structure GrpcClient where
  inner : Inner
deriving DecidableEq, Repr

/-- GrpcClient::stop_notify (the public RpcApi implementation): when the
server advertised has_notify_command, forward to the notifier (whose result
is a parameter) and return its result; otherwise return UnsupportedFeature.
The returned flag records whether the notifier was invoked at all. -/
def GrpcClient.stop_notify (c : GrpcClient) (_listener : Nat)
    (_t : NotificationType) (notifierResult : Except RpcError Unit) :
    Except RpcError Unit × Bool :=
  if c.inner.handle_stop_notify then
    match notifierResult with
    | Except.ok _ => (Except.ok (), true)
    | Except.error e => (Except.error e, true)
  else
    (Except.error RpcError.unsupportedFeature, false)

/- ---------------------------------------------------------------------
Concrete sample values, used by witnesses and counterexamples
--------------------------------------------------------------------- -/

/-- A fresh notification channel with room for 100 items. -/
def notifyCh0 : ChannelState Notification :=
  { closed := false, capacity := 100, buffer := [] }

/-- A fresh request channel of capacity 16. -/
def requestCh0 : ChannelState KaspadRequest :=
  { closed := false, capacity := 16, buffer := [] }

/-- A client state for a server without capabilities (queue resolver). -/
def innerQF : Inner := Inner.new false false notifyCh0 requestCh0

/-- A client state for a fully capable server (id resolver). -/
def innerIT : Inner := Inner.new true true notifyCh0 requestCh0

/-- A fully capable client state with both background tasks running. -/
def innerRunningTT : Inner :=
  { innerIT with receiver_is_running := true, timeout_is_running := true }

/-- A conversion function that always fails. -/
def convNone : KaspadResponse → Option Notification := fun _ => none

/-- A sample notification. -/
def notifX : Notification := Notification.NewBlockTemplate {}

/-- A conversion function that always yields the sample notification. -/
def convSomeX : KaspadResponse → Option Notification := fun _ => some notifX

/-- A non-notification response carrying no payload. -/
def respNoPayload : KaspadResponse :=
  { id := 1, op := RpcApiOps.ping, payload := none, is_notification := false }

/-- A notification response. -/
def respNotif : KaspadResponse :=
  { id := 2, op := RpcApiOps.ping, payload := some 0, is_notification := true }

/-- A non-notification response carrying a payload. -/
def respWithPayload : KaspadResponse :=
  { id := 3, op := RpcApiOps.getBlock, payload := some 9, is_notification := false }

/-- A ping request with a payload and the default id. -/
def reqPingX : KaspadRequest :=
  { id := 0, payload := some (RequestPayload.body RpcApiOps.ping 0) }

/-- A first inbound message for the handshake. -/
def msgTT : KaspadResponse :=
  { id := 0, op := RpcApiOps.getInfo, payload := some 0, is_notification := false }

/-- A GetInfo decoder advertising both capabilities. -/
def decodeTT : KaspadResponse → Option GetInfoResponse :=
  fun _ => some { has_notify_command := true, has_message_id := true }

/-- A GetInfo decoder that always fails. -/
def decodeNone : KaspadResponse → Option GetInfoResponse := fun _ => none

/-- A first read failing with a transport-level stream error. -/
def firstReadErrX : Except ClientError (Option KaspadResponse) :=
  Except.error (ClientError.stringError "transport status")

/-- The client state produced by a handshake advertising both capabilities. -/
def innerConnTT : Inner :=
  { handle_stop_notify := true
    handle_message_id := true
    notify_sender := notifyCh0
    request_sender := { closed := false, capacity := 16, buffer := [getInfoRequestMessage] }
    resolver := DynResolver.idResolver []
    receiver_is_running := true
    timeout_is_running := true }

/-- A chain-changed payload with a non-empty accepted transaction id list. -/
def vsccPayloadX : VirtualSelectedParentChainChangedNotification :=
  { added_chain_block_hashes := [1, 2]
    removed_chain_block_hashes := [3]
    accepted_transaction_ids := [7, 8] }

/-- An active chain-changed subscription withholding accepted ids. -/
def vsccSubX : VirtualSelectedParentChainChangedSubscription :=
  { active := true, include_accepted_transaction_ids := false }

/- ---------------------------------------------------------------------
Helper lemmas
--------------------------------------------------------------------- -/

theorem register_request_isIdBased (r : DynResolver) (op : RpcApiOps)
    (request : KaspadRequest) :
    (r.register_request op request).isIdBased = r.isIdBased := by
  cases r <;> rfl

theorem handle_response_isIdBased (r : DynResolver) (response : KaspadResponse) :
    (r.handle_response response).isIdBased = r.isIdBased := by
  cases r <;> rfl

theorem callStep_caps (s : Inner) (op : RpcApiOps) (freshId : Nat)
    (request0 : KaspadRequest) :
    ((s.callStep op freshId request0).2.1).caps = s.caps := by
  unfold Inner.callStep
  dsimp only
  split_ifs <;> simp [Inner.caps, register_request_isIdBased]

theorem handle_response_caps (conv : KaspadResponse → Option Notification)
    (s : Inner) (response : KaspadResponse) :
    ((Inner.handle_response conv s response).1).caps = s.caps := by
  unfold Inner.handle_response
  split_ifs
  · cases conv response with
    | none => rfl
    | some n =>
      dsimp only
      cases s.notify_sender.trySend n with
      | none => rfl
      | some c => simp [Inner.caps]
  · simp [Inner.caps, handle_response_isIdBased]
  · rfl

/- ---------------------------------------------------------------------
Claim theorems
--------------------------------------------------------------------- -/

/-- C9: applying a UtxosChanged subscription to any notification is an
unconditional pass-through, regardless of the active flag and of the watched
address set. -/
theorem c9_utxos_changed_passthrough (n : Notification)
    (subscription : UtxosChangedSubscription) :
    n.apply_utxos_changed_subscription subscription = some n := rfl

/-- C3: applying a chain-changed subscription to a chain-changed
notification: when active with include_accepted_transaction_ids false and a
non-empty accepted list, the result is a copy with an empty accepted list and
the original added and removed hashes; every other active case passes the
notification through; an inactive subscription yields nothing. -/
theorem c3_chain_changed_filter
    (payload : VirtualSelectedParentChainChangedNotification)
    (subscription : VirtualSelectedParentChainChangedSubscription) :
    (subscription.active = true →
      subscription.include_accepted_transaction_ids = false →
      payload.accepted_transaction_ids ≠ [] →
      (Notification.VirtualSelectedParentChainChanged payload).apply_virtual_selected_parent_chain_changed_subscription
          subscription =
        some (Notification.VirtualSelectedParentChainChanged
          { added_chain_block_hashes := payload.added_chain_block_hashes
            removed_chain_block_hashes := payload.removed_chain_block_hashes
            accepted_transaction_ids := [] })) ∧
    (subscription.active = true →
      (subscription.include_accepted_transaction_ids = true ∨
        payload.accepted_transaction_ids = []) →
      (Notification.VirtualSelectedParentChainChanged payload).apply_virtual_selected_parent_chain_changed_subscription
          subscription =
        some (Notification.VirtualSelectedParentChainChanged payload)) ∧
    (subscription.active = false →
      (Notification.VirtualSelectedParentChainChanged payload).apply_virtual_selected_parent_chain_changed_subscription
          subscription = none) := by
  refine ⟨fun ha hi hne => ?_, fun ha hcase => ?_, fun ha => ?_⟩
  · simp [Notification.apply_virtual_selected_parent_chain_changed_subscription, ha, hi,
      List.isEmpty_iff, hne]
  · rcases hcase with hi | hemp
    · simp [Notification.apply_virtual_selected_parent_chain_changed_subscription, ha, hi]
    · simp [Notification.apply_virtual_selected_parent_chain_changed_subscription, ha, hemp]
  · simp [Notification.apply_virtual_selected_parent_chain_changed_subscription, ha]

/-- C3 witness: the filter at a concrete active subscription and a concrete
payload with a non-empty accepted list. -/
theorem c3_witness :
    (Notification.VirtualSelectedParentChainChanged vsccPayloadX).apply_virtual_selected_parent_chain_changed_subscription
        vsccSubX =
      some (Notification.VirtualSelectedParentChainChanged
        { added_chain_block_hashes := vsccPayloadX.added_chain_block_hashes
          removed_chain_block_hashes := vsccPayloadX.removed_chain_block_hashes
          accepted_transaction_ids := [] }) :=
  (c3_chain_changed_filter vsccPayloadX vsccSubX).1 rfl rfl (by decide)

/-- C2: the public stop_notify returns Unsupported without invoking the
notifier when the server did not advertise has_notify_command, and forwards to
the notifier and returns its result when it did. -/
theorem c2_public_stop_notify (c : GrpcClient) (listener : Nat)
    (t : NotificationType) (notifierResult : Except RpcError Unit) :
    (c.inner.handle_stop_notify = false →
      c.stop_notify listener t notifierResult =
        (Except.error RpcError.unsupportedFeature, false)) ∧
    (c.inner.handle_stop_notify = true →
      c.stop_notify listener t notifierResult = (notifierResult, true)) := by
  constructor
  · intro h
    simp [GrpcClient.stop_notify, h]
  · intro h
    cases notifierResult with
    | ok u => simp [GrpcClient.stop_notify, h]
    | error e => simp [GrpcClient.stop_notify, h]

/-- C2 witness: a capability-free server answers Unsupported without touching
the notifier; a capable server returns the notifier result verbatim. -/
theorem c2_witness :
    GrpcClient.stop_notify { inner := innerQF } 1 NotificationType.blockAdded
        (Except.ok ()) = (Except.error RpcError.unsupportedFeature, false) ∧
    GrpcClient.stop_notify { inner := innerIT } 1 NotificationType.blockAdded
        (Except.error (RpcError.otherError 5)) =
      (Except.error (RpcError.otherError 5), true) :=
  ⟨(c2_public_stop_notify { inner := innerQF } 1 NotificationType.blockAdded
      (Except.ok ())).1 rfl,
   (c2_public_stop_notify { inner := innerIT } 1 NotificationType.blockAdded
      (Except.error (RpcError.otherError 5))).2 rfl⟩

/-- C7: a call whose request carries no payload returns the
MissingRequestPayload error, leaves the client state unchanged, registers no
pending and emits nothing. -/
theorem c7_missing_payload (s : Inner) (op : RpcApiOps) (freshId : Nat)
    (request0 : KaspadRequest) (h : request0.payload = none) :
    s.callStep op freshId request0 =
      (CallOutcome.failed ClientError.missingRequestPayload, s, []) := by
  unfold Inner.callStep
  simp [h]

/-- C7 witness: a payload-free ping call fails with MissingRequestPayload and
changes nothing. -/
theorem c7_witness :
    innerIT.callStep RpcApiOps.ping 9 { id := 0, payload := none } =
      (CallOutcome.failed ClientError.missingRequestPayload, innerIT, []) :=
  c7_missing_payload innerIT RpcApiOps.ping 9 { id := 0, payload := none } rfl

/-- C4 counterexample: a non-notification response carrying no payload is
dropped by handle_response — the state is unchanged and no resolver delivery
happens — refuting the claim that every non-notification response is
delivered to the resolver. -/
theorem c4_counterexample :
    respNoPayload.is_notification = false ∧
    Inner.handle_response convNone innerQF respNoPayload = (innerQF, []) := by
  decide

/-- C4 amended: a notification response is converted and, when conversion and
the non-blocking send both succeed, forwarded to the notifier channel, being
dropped otherwise; a non-notification response is delivered to the resolver
exactly when it carries a payload, and is dropped when it carries none. -/
theorem c4_response_routing (conv : KaspadResponse → Option Notification)
    (s : Inner) (response : KaspadResponse) :
    (response.is_notification = true →
      (∀ n, conv response = some n →
        (∀ c, s.notify_sender.trySend n = some c →
          Inner.handle_response conv s response =
            ({ s with notify_sender := c }, [Effect.notifySend n])) ∧
        (s.notify_sender.trySend n = none →
          Inner.handle_response conv s response = (s, []))) ∧
      (conv response = none → Inner.handle_response conv s response = (s, []))) ∧
    (response.is_notification = false → response.payload.isSome = true →
      Inner.handle_response conv s response =
        ({ s with resolver := s.resolver.handle_response response },
          [Effect.resolverComplete response])) ∧
    (response.is_notification = false → response.payload = none →
      Inner.handle_response conv s response = (s, [])) := by
  refine ⟨fun hn => ⟨fun n hconv => ⟨fun c hsend => ?_, fun hsend => ?_⟩, fun hconv => ?_⟩,
    fun hn hp => ?_, fun hn hp => ?_⟩
  · simp [Inner.handle_response, hn, hconv, hsend]
  · simp [Inner.handle_response, hn, hconv, hsend]
  · simp [Inner.handle_response, hn, hconv]
  · simp [Inner.handle_response, hn, hp]
  · simp [Inner.handle_response, hn, hp]

/-- C4 witness: a concrete notification is forwarded to the notifier channel
and a concrete payload-carrying response is delivered to the resolver. -/
theorem c4_witness :
    Inner.handle_response convSomeX innerQF respNotif =
      ({ innerQF with notify_sender := { notifyCh0 with buffer := [notifX] } },
        [Effect.notifySend notifX]) ∧
    Inner.handle_response convNone innerQF respWithPayload =
      ({ innerQF with resolver := DynResolver.queueResolver [] },
        [Effect.resolverComplete respWithPayload]) := by
  constructor
  · exact (((c4_response_routing convSomeX innerQF respNotif).1 rfl).1 notifX rfl).1
      { notifyCh0 with buffer := [notifX] } (by decide)
  · exact (c4_response_routing convNone innerQF respWithPayload).2.1 rfl rfl

/-- C5 counterexample: on a session negotiated with has_message_id = false, a
call still assigns the freshly generated id (42) to the outgoing request — it
is registered and enqueued with id 42 — refuting the claim that the id is
present iff the server negotiated has_message_id. -/
theorem c5_counterexample :
    innerQF.handle_message_id = false ∧
    (innerQF.callStep RpcApiOps.ping 42 reqPingX).2.2 =
      [Effect.resolverRegister RpcApiOps.ping
        { id := 42, payload := some (RequestPayload.body RpcApiOps.ping 0) },
       Effect.requestSend
        { id := 42, payload := some (RequestPayload.body RpcApiOps.ping 0) }] := by
  decide

/-- C5 amended: for every payload-carrying request of a call, a freshly
generated 64-bit id is assigned to the request before it is registered and
enqueued, unconditionally — regardless of the negotiated has_message_id
flag. -/
theorem c5_fresh_id_always_assigned (s : Inner) (op : RpcApiOps)
    (freshId : Nat) (request0 : KaspadRequest)
    (h : request0.payload.isSome = true) :
    (s.callStep op freshId request0).2.2 =
      (if s.request_sender.closed then
        [Effect.resolverRegister op { request0 with id := freshId % 2 ^ 64 }]
       else
        [Effect.resolverRegister op { request0 with id := freshId % 2 ^ 64 },
         Effect.requestSend { request0 with id := freshId % 2 ^ 64 }]) := by
  unfold Inner.callStep
  simp only [h]
  split_ifs with h1 h2 <;> simp_all

/-- C5 witness: the amended statement at a concrete call on the queue-based
session. -/
theorem c5_witness :
    (innerQF.callStep RpcApiOps.getBlock 7 reqPingX).2.2 =
      (if innerQF.request_sender.closed then
        [Effect.resolverRegister RpcApiOps.getBlock { reqPingX with id := 7 % 2 ^ 64 }]
       else
        [Effect.resolverRegister RpcApiOps.getBlock { reqPingX with id := 7 % 2 ^ 64 },
         Effect.requestSend { reqPingX with id := 7 % 2 ^ 64 }]) :=
  c5_fresh_id_always_assigned innerQF RpcApiOps.getBlock 7 reqPingX rfl

/-- C6: one iteration of the receive task never produces an error: it breaks
exactly on the shutdown signal or on end-of-stream; a transient stream error
leaves the state unchanged and continues; a notification failing conversion,
or failing the non-blocking send to the notifier channel, is dropped with no
state change and the loop continues. -/
theorem c6_receiver_task_resilience (conv : KaspadResponse → Option Notification)
    (s : Inner) (e : StreamEvent) :
    ((Inner.receiverStep conv s e).1 = LoopAction.breakLoop ↔
      (e = StreamEvent.shutdownSignal ∨
        e = StreamEvent.streamItem (Except.ok none))) ∧
    (∀ err, e = StreamEvent.streamItem (Except.error err) →
      Inner.receiverStep conv s e = (LoopAction.continueLoop, s, [])) ∧
    (∀ response, e = StreamEvent.streamItem (Except.ok (some response)) →
      response.is_notification = true → conv response = none →
      Inner.receiverStep conv s e = (LoopAction.continueLoop, s, [])) ∧
    (∀ response n, e = StreamEvent.streamItem (Except.ok (some response)) →
      response.is_notification = true → conv response = some n →
      s.notify_sender.trySend n = none →
      Inner.receiverStep conv s e = (LoopAction.continueLoop, s, [])) := by
  refine ⟨?_, fun err he => ?_, fun response he hn hconv => ?_,
    fun response n he hn hconv hsend => ?_⟩
  · cases e with
    | shutdownSignal => simp [Inner.receiverStep]
    | streamItem m =>
      cases m with
      | error err => simp [Inner.receiverStep]
      | ok o =>
        cases o with
        | none => simp [Inner.receiverStep]
        | some response => simp [Inner.receiverStep]
  · subst he
    rfl
  · subst he
    simp [Inner.receiverStep, Inner.handle_response, hn, hconv]
  · subst he
    simp [Inner.receiverStep, Inner.handle_response, hn, hconv, hsend]

/-- C6 witness: a concrete transient stream error and a concrete
conversion-failing notification both continue the loop with no state
change. -/
theorem c6_witness :
    Inner.receiverStep convNone innerQF
        (StreamEvent.streamItem (Except.error "boom")) =
      (LoopAction.continueLoop, innerQF, []) ∧
    Inner.receiverStep convNone innerQF
        (StreamEvent.streamItem (Except.ok (some respNotif))) =
      (LoopAction.continueLoop, innerQF, []) :=
  ⟨(c6_receiver_task_resilience convNone innerQF
      (StreamEvent.streamItem (Except.error "boom"))).2.1 "boom" rfl,
   (c6_receiver_task_resilience convNone innerQF
      (StreamEvent.streamItem (Except.ok (some respNotif)))).2.2.1 respNotif rfl rfl rfl⟩

/-- C8: shutdown always returns Ok; after it returns neither background task
is running; a second shutdown is a complete no-op; a task whose running flag
is already false gets no trigger and no await, while a running task gets
both. -/
theorem c8_shutdown_idempotent (s : Inner) :
    (Inner.shutdown s).1 = Except.ok () ∧
    ((Inner.shutdown s).2.1).receiver_is_running = false ∧
    ((Inner.shutdown s).2.1).timeout_is_running = false ∧
    Inner.shutdown ((Inner.shutdown s).2.1) =
      (Except.ok (), (Inner.shutdown s).2.1, []) ∧
    (s.timeout_is_running = false →
      Effect.timeoutShutdownTrigger ∉ (Inner.shutdown s).2.2 ∧
      Effect.timeoutShutdownAwaited ∉ (Inner.shutdown s).2.2) ∧
    (s.receiver_is_running = false →
      Effect.receiverShutdownTrigger ∉ (Inner.shutdown s).2.2 ∧
      Effect.receiverShutdownAwaited ∉ (Inner.shutdown s).2.2) ∧
    (s.timeout_is_running = true →
      Effect.timeoutShutdownTrigger ∈ (Inner.shutdown s).2.2 ∧
      Effect.timeoutShutdownAwaited ∈ (Inner.shutdown s).2.2) ∧
    (s.receiver_is_running = true →
      Effect.receiverShutdownTrigger ∈ (Inner.shutdown s).2.2 ∧
      Effect.receiverShutdownAwaited ∈ (Inner.shutdown s).2.2) := by
  obtain ⟨hsn, hmi, nch, rch, res, recvRun, toutRun⟩ := s
  cases recvRun <;> cases toutRun <;>
    simp [Inner.shutdown, Inner.stop_timeout_monitor, Inner.stop_response_receiver_task]

/-- C8 witness: with both tasks running a shutdown performs both handshakes;
with neither running it performs none. -/
theorem c8_witness :
    (Effect.timeoutShutdownTrigger ∈ (Inner.shutdown innerRunningTT).2.2 ∧
     Effect.timeoutShutdownAwaited ∈ (Inner.shutdown innerRunningTT).2.2) ∧
    (Effect.receiverShutdownTrigger ∉ (Inner.shutdown innerQF).2.2 ∧
     Effect.receiverShutdownAwaited ∉ (Inner.shutdown innerQF).2.2) :=
  ⟨(c8_shutdown_idempotent innerRunningTT).2.2.2.2.2.2.1 rfl,
   (c8_shutdown_idempotent innerQF).2.2.2.2.2.1 rfl⟩

/-- C10 counterexample: a first read failing with a stream error (not a
closed stream) also makes connect return an error, refuting the claim that
connect errors only when the stream is closed before any first message. -/
theorem c10_counterexample :
    (Inner.connect firstReadErrX decodeNone notifyCh0).2 =
      Except.error (ClientError.stringError "transport status") ∧
    firstReadErrX ≠ Except.ok none := by
  constructor
  · rfl
  · decide

/-- C10 amended: an arrived but undecodable first message still makes connect
succeed with both capability flags false — so the queue-based resolver is
built and the public stop_notify reports Unsupported — while connect returns
an error exactly when no first message arrives: the stream is closed, or the
first read fails with a stream error. -/
theorem c10_connect_decode_default
    (firstRead : Except ClientError (Option KaspadResponse))
    (decodeGetInfo : KaspadResponse → Option GetInfoResponse)
    (notify_send : ChannelState Notification) :
    (∀ msg, firstRead = Except.ok (some msg) → decodeGetInfo msg = none →
      ∃ inner, (Inner.connect firstRead decodeGetInfo notify_send).2 = Except.ok inner ∧
        inner.handle_stop_notify = false ∧
        inner.handle_message_id = false ∧
        inner.resolver = DynResolver.queueResolver [] ∧
        GrpcClient.stop_notify { inner := inner } 0 NotificationType.blockAdded
            (Except.ok ()) = (Except.error RpcError.unsupportedFeature, false)) ∧
    ((∃ e, (Inner.connect firstRead decodeGetInfo notify_send).2 = Except.error e) ↔
      (firstRead = Except.ok none ∨ ∃ e, firstRead = Except.error e)) := by
  constructor
  · intro msg he hd
    subst he
    refine ⟨_, rfl, ?_⟩
    simp [Inner.connect, Inner.new, hd, GrpcClient.stop_notify]
  · cases firstRead with
    | error e => simp [Inner.connect]
    | ok o =>
      cases o with
      | none => simp [Inner.connect]
      | some msg => simp [Inner.connect]

/-- C10 witness: the amended statement at a concrete message and an always
failing decoder. -/
theorem c10_witness :
    ∃ inner, (Inner.connect (Except.ok (some msgTT)) decodeNone notifyCh0).2 =
        Except.ok inner ∧
      inner.handle_stop_notify = false ∧
      inner.handle_message_id = false ∧
      inner.resolver = DynResolver.queueResolver [] ∧
      GrpcClient.stop_notify { inner := inner } 0 NotificationType.blockAdded
          (Except.ok ()) = (Except.error RpcError.unsupportedFeature, false) :=
  (c10_connect_decode_default (Except.ok (some msgTT)) decodeNone notifyCh0).1
    msgTT rfl rfl

/-- C1: the first outbound message of connect is the GetInfo probe; a
successful connect read its first inbound message and recorded the capability
flags from its decoding (defaulting to false), built the resolver variant
from has_message_id — id-based iff true, queue-based otherwise — and every
session operation preserves both capability flags and the resolver
variant. -/
theorem c1_handshake_capability_and_resolver
    (firstRead : Except ClientError (Option KaspadResponse))
    (decodeGetInfo : KaspadResponse → Option GetInfoResponse)
    (notify_send : ChannelState Notification) :
    (Inner.connect firstRead decodeGetInfo notify_send).1 = [getInfoRequestMessage] ∧
    (∀ inner, (Inner.connect firstRead decodeGetInfo notify_send).2 = Except.ok inner →
      ∃ msg, firstRead = Except.ok (some msg) ∧
        inner.handle_stop_notify =
          ((decodeGetInfo msg).map GetInfoResponse.has_notify_command).getD false ∧
        inner.handle_message_id =
          ((decodeGetInfo msg).map GetInfoResponse.has_message_id).getD false ∧
        inner.resolver.isIdBased = inner.handle_message_id ∧
        (inner.handle_message_id = true → inner.resolver = DynResolver.idResolver []) ∧
        (inner.handle_message_id = false → inner.resolver = DynResolver.queueResolver [])) ∧
    (∀ (s : Inner) (op : RpcApiOps) (freshId : Nat) (request0 : KaspadRequest),
      ((s.callStep op freshId request0).2.1).caps = s.caps) ∧
    (∀ (conv : KaspadResponse → Option Notification) (s : Inner) (response : KaspadResponse),
      ((Inner.handle_response conv s response).1).caps = s.caps) ∧
    (∀ (conv : KaspadResponse → Option Notification) (s : Inner) (e : StreamEvent),
      ((Inner.receiverStep conv s e).2.1).caps = s.caps) ∧
    (∀ (s : Inner), ((Inner.shutdown s).2.1).caps = s.caps) ∧
    (∀ (s : Inner) (l : Nat) (t : NotificationType) (freshId : Nat),
      ((Inner.sm_start_notify s l t freshId).2.1).caps = s.caps) ∧
    (∀ (s : Inner) (l : Nat) (t : NotificationType) (freshId : Nat),
      ((Inner.sm_stop_notify s l t freshId).2.1).caps = s.caps) := by
  refine ⟨?_, ?_, callStep_caps, handle_response_caps, ?_, ?_, ?_, ?_⟩
  · cases firstRead with
    | error e => rfl
    | ok o => cases o with
      | none => rfl
      | some msg => rfl
  · intro inner h
    cases firstRead with
    | error e => simp [Inner.connect] at h
    | ok o =>
      cases o with
      | none => simp [Inner.connect] at h
      | some msg =>
        refine ⟨msg, rfl, ?_⟩
        simp only [Inner.connect, Inner.new, Except.ok.injEq] at h
        subst h
        cases hd : decodeGetInfo msg with
        | none => simp [hd, DynResolver.isIdBased]
        | some caps =>
          cases hm : caps.has_message_id <;>
            simp [hd, hm, DynResolver.isIdBased]
  · intro conv s e
    cases e with
    | shutdownSignal => rfl
    | streamItem m =>
      cases m with
      | error err => rfl
      | ok o =>
        cases o with
        | none => rfl
        | some response => exact handle_response_caps conv s response
  · intro s
    obtain ⟨hsn, hmi, nch, rch, res, recvRun, toutRun⟩ := s
    cases recvRun <;> cases toutRun <;>
      simp [Inner.shutdown, Inner.stop_timeout_monitor,
        Inner.stop_response_receiver_task, Inner.caps]
  · intro s l t freshId
    unfold Inner.sm_start_notify
    have h := callStep_caps s (RpcApiOps.notifyOp t SubscribeCommand.start) freshId
      { id := 0, payload := some (payloadFromNotificationType t SubscribeCommand.start) }
    rcases hc : s.callStep (RpcApiOps.notifyOp t SubscribeCommand.start) freshId
        { id := 0, payload := some (payloadFromNotificationType t SubscribeCommand.start) }
      with ⟨outcome, s2, eff⟩
    rw [hc] at h
    cases outcome <;> simpa [hc] using h
  · intro s l t freshId
    unfold Inner.sm_stop_notify
    by_cases hs : s.handle_stop_notify
    · simp only [hs, if_true]
      have h := callStep_caps s (RpcApiOps.notifyOp t SubscribeCommand.stop) freshId
        { id := 0, payload := some (payloadFromNotificationType t SubscribeCommand.stop) }
      rcases hc : s.callStep (RpcApiOps.notifyOp t SubscribeCommand.stop) freshId
          { id := 0, payload := some (payloadFromNotificationType t SubscribeCommand.stop) }
        with ⟨outcome, s2, eff⟩
      rw [hc] at h
      cases outcome <;> simpa [hc] using h
    · simp [hs]

/-- C1 witness: connecting to a server advertising both capabilities yields
the id-based resolver with both flags true, and a concrete call preserves the
capability flags and the resolver variant. -/
theorem c1_witness :
    (∃ msg, (Except.ok (some msgTT) : Except ClientError (Option KaspadResponse)) =
        Except.ok (some msg) ∧
      innerConnTT.handle_stop_notify =
        ((decodeTT msg).map GetInfoResponse.has_notify_command).getD false ∧
      innerConnTT.handle_message_id =
        ((decodeTT msg).map GetInfoResponse.has_message_id).getD false ∧
      innerConnTT.resolver.isIdBased = innerConnTT.handle_message_id ∧
      (innerConnTT.handle_message_id = true →
        innerConnTT.resolver = DynResolver.idResolver []) ∧
      (innerConnTT.handle_message_id = false →
        innerConnTT.resolver = DynResolver.queueResolver [])) ∧
    ((innerConnTT.callStep RpcApiOps.ping 7 reqPingX).2.1).caps = innerConnTT.caps :=
  ⟨(c1_handshake_capability_and_resolver (Except.ok (some msgTT)) decodeTT
      notifyCh0).2.1 innerConnTT (by decide),
   (c1_handshake_capability_and_resolver (Except.ok (some msgTT)) decodeTT
      notifyCh0).2.2.1 innerConnTT RpcApiOps.ping 7 reqPingX⟩

end RustyKaspa
